import Mathlib

/-!
# Verification of the teletrace SQLite span reader

Shallow embedding of src/plugin/spanreader/sqlite/span_reader.go.

The span reader is a read-side query engine. Its methods prepare a query
through an external execution capability (database/sql), iterate a row
cursor, and materialize rows into domain values. The embedding models the
external capability per call as an environment record: the outcome of
query building, of statement preparation, and of query execution (the
latter as the list of row outcomes the cursor yields). The loop bodies of
span_reader.go are translated directly as accumulator recursions.

Go slices distinguish a nil slice from an allocated empty slice; the code
relies on this distinction (Search allocates its Spans slice with
make([], 0) and comments "can't be nil", while GetTagValues accumulates
into a nil-initialized slice). GoSlice models that as an Option of a list.
-/

namespace Teletrace

/-- A Go slice value: none models a nil slice, some l an allocated slice
with elements l. -/
def GoSlice (α : Type) : Type := Option (List α)

/-- The nil (zero-value) slice, as produced by a plain var declaration. -/
def GoSlice.nilSlice {α : Type} : GoSlice α := none

/-- An allocated slice with the given elements; GoSlice.make [] models
make([]T, 0). -/
def GoSlice.make {α : Type} (l : List α) : GoSlice α := some l

/-- Go append of one element: appending to a nil slice allocates. -/
def GoSlice.append {α : Type} : GoSlice α → α → GoSlice α
  | none, a => some [a]
  | some l, a => some (l ++ [a])

/-- The elements of a slice; a nil slice has none. -/
def GoSlice.toList {α : Type} : GoSlice α → List α
  | none => []
  | some l => l

/-- len of a slice (len of a nil slice is 0, as in Go). -/
def GoSlice.len {α : Type} (s : GoSlice α) : Nat := s.toList.length

/-- Whether the slice is nil (as opposed to allocated-but-empty). -/
def GoSlice.isNil {α : Type} : GoSlice α → Bool
  | none => true
  | some _ => false

instance {α : Type} [DecidableEq α] : DecidableEq (GoSlice α) :=
  inferInstanceAs (DecidableEq (Option (List α)))

/-! ## Span data model

internalspan.InternalSpan carries the full span record; the claims only
inspect the two sort-field values the continuation token is built from
(Span.StartTimeUnixNano and ExternalFields.DurationNano), so only those
fields are modeled. The remaining 20+ row columns are abstracted into the
row outcome (scan either fails or yields a complete sqliteSpan, whose
conversion either fails or yields a complete InternalSpan). -/

/-- The embedded trace span payload (InternalSpan.Span); uint64 nanosecond
start timestamp. -/
structure TraceSpan where
  startTimeUnixNano : Nat
deriving DecidableEq

/-- InternalSpan.ExternalFields; uint64 nanosecond duration. -/
structure ExternalFields where
  durationNano : Nat
deriving DecidableEq

/-- The domain span produced by sqliteSpan.toInternalSpan on success. -/
structure InternalSpan where
  span : TraceSpan
  externalFields : ExternalFields
deriving DecidableEq

/-- spansquery.Metadata: the next-page block holding the continuation
token (a string). -/
structure Metadata where
  nextToken : String
deriving DecidableEq

/-- spansquery.SearchResponse: the Spans slice plus the optional Metadata
pointer (none models a nil Metadata pointer, i.e. no next-page block). -/
structure SearchResponse where
  spans : GoSlice InternalSpan
  metadata : Option Metadata
deriving DecidableEq

/-- Modelled from the spec: spansquery.SearchRequest (defined outside the
sources at hand) carries filters, sort, cursor and a page-size bound; only
the page-size bound is referenced by the properties, the rest is consumed
opaquely by buildSearchQuery (modeled in SearchEnv.build). -/
structure SearchRequest where
  pageSize : Nat
deriving DecidableEq

/-- The object returned by buildSearchQuery: the SQL text (getQuery) and
the effective sort field (getSort). -/
structure SearchQueryResponse where
  query : String
  sort : String
deriving DecidableEq

/-- Outcome of one row of the span search cursor: the rows.Scan call
fails, or sqliteSpan.toInternalSpan fails, or a span is produced. -/
inductive RowOutcome
  | scanError
  | convError
  | ok (s : InternalSpan)
deriving DecidableEq

/-- The span a row contributes to the result, if any. -/
def rowSpan? : RowOutcome → Option InternalSpan
  | .scanError => none
  | .convError => none
  | .ok s => some s

/-- The external collaborators of one Search call: the buildSearchQuery
outcome, the PrepareContext outcome, and the QueryContext outcome (on
success, the row outcomes the cursor yields, already bounded by the LIMIT
the builder put in the query). -/
structure SearchEnv where
  build : SearchRequest → Except String SearchQueryResponse
  prepare : Except String Unit
  query : Except String (List RowOutcome)

/-- The span-accumulation loop of Search (lines 63-102): scan errors and
conversion errors are logged and skipped via continue, successes are
appended to result.Spans. -/
def collectSpans : List RowOutcome → GoSlice InternalSpan → GoSlice InternalSpan
  | [], acc => acc
  | .scanError :: rest, acc => collectSpans rest acc
  | .convError :: rest, acc => collectSpans rest acc
  | .ok s :: rest, acc => collectSpans rest (acc.append s)

/-- The continuation-token switch on searchQueryResponse.getSort()
(lines 107-112): Sprintf %d of DurationNano for "duration", of
StartTimeUnixNano otherwise. -/
def tokenFor (sortField : String) (last : InternalSpan) : String :=
  if sortField = "duration" then toString last.externalFields.durationNano
  else toString last.span.startTimeUnixNano

/-- spanReader.Search (lines 45-119). result.Spans is allocated up front
(can't be nil); build/prepare/query failures abort the call; rows are
accumulated by collectSpans; if at least one span was collected and the
last collected span is non-nil, Metadata carries the token of the last
span's sort-field value. The request only feeds buildSearchQuery, whose
outcome env.build already reflects it. -/
def search (r : SearchRequest) (env : SearchEnv) : Except String SearchResponse :=
  match env.build r with
  | .error e => .error e
  | .ok sq =>
    match env.prepare with
    | .error e => .error ("failed to prepare query: " ++ e)
    | .ok _ =>
      match env.query with
      | .error e => .error ("failed to query spans: " ++ e)
      | .ok rows =>
        let spans := collectSpans rows (GoSlice.make [])
        if spans.len > 0 then
          match spans.toList.getLast? with
          | some last =>
            .ok { spans := spans, metadata := some { nextToken := tokenFor sq.sort last } }
          | none => .ok { spans := spans, metadata := none }
        else
          .ok { spans := spans, metadata := none }

/-! ## Tag catalog (GetAvailableTags, lines 121-156) -/

/-- tagsquery.TagInfo: qualified tag name and its type. -/
structure TagInfo where
  name : String
  type : String
deriving DecidableEq

/-- tagsquery.GetAvailableTagsResponse: the Tags slice (nil-initialized
by the var declaration, grown by append). -/
structure GetAvailableTagsResponse where
  tags : GoSlice TagInfo
deriving DecidableEq

/-- One row of the dynamic-tags discovery cursor: the table key (source),
the tag name (field) and the reported type, as scanned into a sqliteTag
(the getters return the scanned strings; a SQL NULL scans as the empty
string, which the code guards for). -/
structure SqliteTag where
  tableKey : String
  tagName : String
  tagType : String
deriving DecidableEq

/-- Outcome of one discovery row: rows.Scan fails, or yields a sqliteTag. -/
inductive TagRow
  | scanError
  | ok (t : SqliteTag)
deriving DecidableEq

/-- The external collaborators of one GetAvailableTags call. -/
structure TagsEnv where
  prepare : Except String Unit
  query : Except String (List TagRow)

/-- The static-registry loop (lines 124-128): each entry of
staticTagTypeMap is appended under its bare name. The registry itself
(staticTagTypeMap, defined elsewhere in the package) is a parameter,
given as the association list the Go map iteration yields. -/
def collectStaticTags : List (String × String) → GoSlice TagInfo → GoSlice TagInfo
  | [], acc => acc
  | (n, ty) :: rest, acc => collectStaticTags rest (acc.append { name := n, type := ty })

/-- The discovery loop (lines 141-154): scan failures are logged and
skipped; a row whose table key or tag name is empty is skipped (null
values guard); otherwise the entry is appended with qualified name
tableKey.tagName and the reported type. -/
def collectDynamicTags : List TagRow → GoSlice TagInfo → GoSlice TagInfo
  | [], acc => acc
  | .scanError :: rest, acc => collectDynamicTags rest acc
  | .ok t :: rest, acc =>
    if t.tableKey = "" ∨ t.tagName = "" then collectDynamicTags rest acc
    else collectDynamicTags rest
      (acc.append { name := t.tableKey ++ "." ++ t.tagName, type := t.tagType })

/-- spanReader.GetAvailableTags (lines 121-156): static registry entries
first, then prepare and run the discovery query (failures abort), then
the discovery loop. -/
def getAvailableTags (staticTags : List (String × String)) (env : TagsEnv) :
    Except String GetAvailableTagsResponse :=
  let tags0 := collectStaticTags staticTags GoSlice.nilSlice
  match env.prepare with
  | .error e => .error ("failed to prepare query: " ++ e)
  | .ok _ =>
    match env.query with
    | .error e => .error ("failed to query tags: " ++ e)
    | .ok rows => .ok { tags := collectDynamicTags rows tags0 }

/-- The entry a discovery row contributes to the tag list, if any:
nothing for a scan failure or an empty table key or tag name, else the
qualified entry. -/
def dynTagEntry : TagRow → Option TagInfo
  | .scanError => none
  | .ok t =>
    if t.tableKey = "" ∨ t.tagName = "" then none
    else some { name := t.tableKey ++ "." ++ t.tagName, type := t.tagType }

/-! ## Tag values (GetTagValues lines 171-210, GetTagsValues lines 158-169) -/

/-- tagsquery.TagValueInfo: one observed value with its count. The Value
field has Go type any; it is scanned from a single value column, modeled
as an optional string where none is SQL NULL. -/
structure TagValueInfo where
  value : Option String
  count : Int
deriving DecidableEq

/-- tagsquery.TagValuesResponse: the Values slice (nil when no row was
appended, as the accumulating local starts as a nil slice). -/
structure TagValuesResponse where
  values : GoSlice TagValueInfo
deriving DecidableEq

/-- Outcome of one tag-values row: rows.Scan fails, or yields the value
(none for SQL NULL) and its count. -/
inductive TagValueRow
  | scanError
  | ok (name : Option String) (count : Int)
deriving DecidableEq

/-- The external collaborators of one GetTagValues call for one tag:
buildTagValuesQuery, PrepareContext and QueryContext outcomes. -/
structure TagValuesEnv where
  build : Except String Unit
  prepare : Except String Unit
  query : Except String (List TagValueRow)

/-- The value-accumulation loop (lines 190-205): scan failures are logged
and skipped, null values are skipped, the rest are appended as
(value, count) entries. -/
def collectTagValues : List TagValueRow → GoSlice TagValueInfo → GoSlice TagValueInfo
  | [], acc => acc
  | .scanError :: rest, acc => collectTagValues rest acc
  | .ok none _ :: rest, acc => collectTagValues rest acc
  | .ok (some v) c :: rest, acc => collectTagValues rest (acc.append { value := some v, count := c })

/-- spanReader.GetTagValues (lines 171-210): build/prepare/query failures
are logged and returned; otherwise the loop runs and a response holding
the accumulated values is always returned. -/
def getTagValues (env : TagValuesEnv) : Except String TagValuesResponse :=
  match env.build with
  | .error e => .error e
  | .ok _ =>
    match env.prepare with
    | .error e => .error e
    | .ok _ =>
      match env.query with
      | .error e => .error e
      | .ok rows => .ok { values := collectTagValues rows GoSlice.nilSlice }

/-- The entry a tag-values row contributes, if any. -/
def tagValueEntry : TagValueRow → Option TagValueInfo
  | .scanError => none
  | .ok none _ => none
  | .ok (some v) c => some { value := some v, count := c }

/-- The batch loop of GetTagsValues (lines 160-167): each tag is looked
up independently (envOf gives that tag's external outcomes for the fixed
request); a failed lookup is logged and the tag skipped, a successful one
stores the response under the tag. The Go result map is modeled as the
insertion-ordered association list of stores. -/
def collectTagsValues (envOf : String → TagValuesEnv) :
    List String → List (String × TagValuesResponse) → List (String × TagValuesResponse)
  | [], acc => acc
  | t :: rest, acc =>
    match getTagValues (envOf t) with
    | .error _ => collectTagsValues envOf rest acc
    | .ok resp => collectTagsValues envOf rest (acc ++ [(t, resp)])

/-- spanReader.GetTagsValues (lines 158-169): runs the batch loop and
always returns the accumulated mapping with a nil error. -/
def getTagsValues (envOf : String → TagValuesEnv) (tags : List String) :
    Except String (List (String × TagValuesResponse)) :=
  .ok (collectTagsValues envOf tags [])

/-! ## Unimplemented operations (lines 212-224)

The request/response types live in pkg/model/metadata and
pkg/model/tagsquery; their fields are never touched by this code, so they
are modeled as empty records. Each Go method returns the pair
(result pointer, error); none models a nil result pointer and the error
is the fmt.Errorf message. -/

structure GetSystemIdRequest
deriving DecidableEq

structure GetSystemIdResponse
deriving DecidableEq

structure SetSystemIdRequest
deriving DecidableEq

structure SetSystemIdResponse
deriving DecidableEq

structure TagStatisticsRequest
deriving DecidableEq

structure TagStatisticsResponse
deriving DecidableEq

/-- spanReader.GetSystemId (lines 212-214). -/
def getSystemId (_r : GetSystemIdRequest) :
    Option GetSystemIdResponse × Option String :=
  (none, some "Not implemented method")

/-- spanReader.SetSystemId (lines 216-218). -/
def setSystemId (_r : SetSystemIdRequest) :
    Option SetSystemIdResponse × Option String :=
  (none, some "Not implemented method")

/-- spanReader.GetTagsStatistics (lines 220-224). -/
def getTagsStatistics (_r : TagStatisticsRequest) (_tag : String) :
    Option TagStatisticsResponse × Option String :=
  (none, some "GetTagsStatistics is not yet implemented for sqlite plugin")

/-! ## Concrete instances used by witnesses and counterexamples -/

/-- A span with start time 100 and duration 900. -/
def spanA : InternalSpan := { span := { startTimeUnixNano := 100 }, externalFields := { durationNano := 900 } }

/-- A span with start time 50 and duration 700. -/
def spanB : InternalSpan := { span := { startTimeUnixNano := 50 }, externalFields := { durationNano := 700 } }

/-- A build result with the default sort (not "duration"). -/
def sqW : SearchQueryResponse := { query := "SELECT spans", sort := "" }

/-- A search environment yielding two decodable rows (start times 100, 50). -/
def searchEnvW : SearchEnv :=
  { build := fun _ => .ok sqW, prepare := .ok (), query := .ok [.ok spanA, .ok spanB] }

/-- A request with page size 2. -/
def reqW : SearchRequest := { pageSize := 2 }

/-- The response searchEnvW produces: both spans, token "50". -/
def respW : SearchResponse :=
  { spans := GoSlice.make [spanA, spanB], metadata := some { nextToken := "50" } }

/-- A request with page size 10, strictly larger than what its query returns. -/
def reqNotFull : SearchRequest := { pageSize := 10 }

/-- A search environment yielding a single decodable row. -/
def searchEnvNotFull : SearchEnv :=
  { build := fun _ => .ok sqW, prepare := .ok (), query := .ok [.ok spanA] }

/-- The response searchEnvNotFull produces: one span, token "100". -/
def respNotFull : SearchResponse :=
  { spans := GoSlice.make [spanA], metadata := some { nextToken := "100" } }

/-- A search environment whose every row fails to decode. -/
def searchEnvAllBad : SearchEnv :=
  { build := fun _ => .ok sqW, prepare := .ok (), query := .ok [.scanError, .convError] }

/-- The response searchEnvAllBad produces: allocated empty spans, no metadata. -/
def respAllBad : SearchResponse := { spans := GoSlice.make [], metadata := none }

/-- Row outcomes mixing decodable rows with scan and conversion failures. -/
def rowsMixed : List RowOutcome := [.ok spanA, .scanError, .ok spanB, .convError]

/-- A search environment yielding rowsMixed. -/
def searchEnvMixed : SearchEnv :=
  { build := fun _ => .ok sqW, prepare := .ok (), query := .ok rowsMixed }

/-- A static registry holding http.method, as in the spec scenario. -/
def staticW : List (String × String) := [("http.method", "string")]

/-- Discovery rows: one valid pair, one scan failure, one empty-source
pair. -/
def tagRowsW : List TagRow :=
  [.ok { tableKey := "resource", tagName := "service.name", tagType := "string" },
   .scanError,
   .ok { tableKey := "", tagName := "ignored", tagType := "string" }]

/-- A tags environment yielding tagRowsW. -/
def tagsEnvW : TagsEnv := { prepare := .ok (), query := .ok tagRowsW }

/-- The response for staticW and tagRowsW: bare static name then the one
qualified discovered name. -/
def tagsRespW : GetAvailableTagsResponse :=
  { tags := GoSlice.make
      [{ name := "http.method", type := "string" },
       { name := "resource.service.name", type := "string" }] }

/-- A discovery row that collides with the static name http.method. -/
def tagRowsDup : List TagRow :=
  [.ok { tableKey := "http", tagName := "method", tagType := "string" }]

/-- A tags environment yielding tagRowsDup. -/
def tagsEnvDup : TagsEnv := { prepare := .ok (), query := .ok tagRowsDup }

/-- The response for staticW and tagRowsDup: the same qualified name
twice. -/
def tagsRespDup : GetAvailableTagsResponse :=
  { tags := GoSlice.make
      [{ name := "http.method", type := "string" },
       { name := "http.method", type := "string" }] }

/-- Tag-value rows as in the spec scenario: (GET, 12), (POST, 3),
(NULL, 5). -/
def tagValueRowsW : List TagValueRow :=
  [.ok (some "GET") 12, .ok (some "POST") 3, .ok none 5]

/-- A tag-values environment yielding tagValueRowsW. -/
def tagValuesEnvW : TagValuesEnv :=
  { build := .ok (), prepare := .ok (), query := .ok tagValueRowsW }

/-- The response tagValuesEnvW produces: exactly the two non-null
entries. -/
def tagValuesRespW : TagValuesResponse :=
  { values := GoSlice.make [{ value := some "GET", count := 12 },
                            { value := some "POST", count := 3 }] }

/-- A tag-values environment whose query execution fails. -/
def tagValuesEnvFail : TagValuesEnv :=
  { build := .ok (), prepare := .ok (), query := .error "ExecutionError" }

/-- A per-tag environment where tag b fails and every other tag yields
tagValueRowsW. -/
def envOfW : String → TagValuesEnv :=
  fun t => if t = "b" then tagValuesEnvFail else tagValuesEnvW

/-- Tag-value rows holding only a null value and a scan failure. -/
def tagValueRowsNull : List TagValueRow := [.ok none 5, .scanError]

/-- A tag-values environment yielding tagValueRowsNull. -/
def tagValuesEnvNull : TagValuesEnv :=
  { build := .ok (), prepare := .ok (), query := .ok tagValueRowsNull }

/-! ## Characterization lemmas -/

theorem GoSlice.toList_append {α : Type} (s : GoSlice α) (a : α) :
    (s.append a).toList = s.toList ++ [a] := by
  cases s <;> rfl

theorem GoSlice.toList_make {α : Type} (l : List α) :
    (GoSlice.make l).toList = l := rfl

theorem GoSlice.toList_nilSlice {α : Type} :
    (GoSlice.nilSlice : GoSlice α).toList = [] := rfl

theorem GoSlice.append_make {α : Type} (l : List α) (a : α) :
    (GoSlice.make l).append a = GoSlice.make (l ++ [a]) := rfl

theorem collectSpans_make (rows : List RowOutcome) (l : List InternalSpan) :
    collectSpans rows (GoSlice.make l) = GoSlice.make (l ++ rows.filterMap rowSpan?) := by
  induction rows generalizing l with
  | nil => simp [collectSpans]
  | cons r rest ih =>
    cases r with
    | scanError => simp [collectSpans, ih, rowSpan?]
    | convError => simp [collectSpans, ih, rowSpan?]
    | ok s => simp [collectSpans, GoSlice.append_make, ih, rowSpan?]

/-- What Search returns when query building, preparation and execution
all succeed: the successfully decoded spans in row order, and next-page
metadata built from the last decoded span exactly when there is one. -/
theorem search_ok_eq (r : SearchRequest) (env : SearchEnv) (sq : SearchQueryResponse)
    (rows : List RowOutcome)
    (hb : env.build r = .ok sq) (hp : env.prepare = .ok ()) (hq : env.query = .ok rows) :
    search r env = .ok
      { spans := GoSlice.make (rows.filterMap rowSpan?),
        metadata := (rows.filterMap rowSpan?).getLast?.map
          (fun last => { nextToken := tokenFor sq.sort last }) } := by
  unfold search
  rw [hb, hp, hq]
  simp only [collectSpans_make, List.nil_append]
  cases hxs : (rows.filterMap rowSpan?).getLast? with
  | none =>
    have hnil : rows.filterMap rowSpan? = [] := List.getLast?_eq_none_iff.mp hxs
    simp [hnil, GoSlice.len, GoSlice.toList_make]
  | some last =>
    have hne : rows.filterMap rowSpan? ≠ [] := by
      intro hnil
      rw [hnil] at hxs
      exact Option.noConfusion hxs
    have hlen : 0 < (GoSlice.make (rows.filterMap rowSpan?)).len := by
      simpa [GoSlice.len, GoSlice.toList_make] using List.length_pos.mpr hne
    rw [if_pos hlen]
    simp [GoSlice.toList_make, hxs]

/-- Inversion: a successful Search call had successful build, prepare and
query stages, and its response is the one search_ok_eq describes. -/
theorem search_ok_inv (r : SearchRequest) (env : SearchEnv) (resp : SearchResponse)
    (h : search r env = .ok resp) :
    ∃ sq rows, env.build r = .ok sq ∧ env.prepare = .ok () ∧ env.query = .ok rows ∧
      resp = { spans := GoSlice.make (rows.filterMap rowSpan?),
               metadata := (rows.filterMap rowSpan?).getLast?.map
                 (fun last => { nextToken := tokenFor sq.sort last }) } := by
  cases hb : env.build r with
  | error e =>
    unfold search at h
    rw [hb] at h
    exact Except.noConfusion h
  | ok sq =>
    cases hp : env.prepare with
    | error e =>
      unfold search at h
      rw [hb, hp] at h
      exact Except.noConfusion h
    | ok u =>
      cases u
      cases hq : env.query with
      | error e =>
        unfold search at h
        rw [hb, hp, hq] at h
        exact Except.noConfusion h
      | ok rows =>
        refine ⟨sq, rows, rfl, rfl, rfl, ?_⟩
        have heq := search_ok_eq r env sq rows hb hp hq
        rw [h] at heq
        exact Except.ok.inj heq

/-! ## Claims about Search -/

/-- Claim C1: every Search call that returns at least one span carries a
continuation token equal to the decimal string of the last returned
span's sort-field value (the duration when the effective sort field is
"duration", otherwise the start time); a Search call that returns zero
spans includes no next-page metadata. -/
theorem search_continuation_token (r : SearchRequest) (env : SearchEnv)
    (sq : SearchQueryResponse) (resp : SearchResponse)
    (hb : env.build r = .ok sq) (h : search r env = .ok resp) :
    (0 < resp.spans.len → ∃ last, resp.spans.toList.getLast? = some last ∧
        resp.metadata = some { nextToken :=
          (if sq.sort = "duration" then toString last.externalFields.durationNano
           else toString last.span.startTimeUnixNano) }) ∧
    (resp.spans.len = 0 → resp.metadata = none) := by
  obtain ⟨sq2, rows, hb2, hp, hq, hresp⟩ := search_ok_inv r env resp h
  rw [hb] at hb2
  injection hb2 with hsq
  subst hsq
  subst hresp
  constructor
  · intro hpos
    have hne : rows.filterMap rowSpan? ≠ [] := by
      simpa [GoSlice.len, GoSlice.toList_make] using List.length_pos.mp hpos
    cases hxs : (rows.filterMap rowSpan?).getLast? with
    | none => exact absurd (List.getLast?_eq_none_iff.mp hxs) hne
    | some last =>
      refine ⟨last, ?_, ?_⟩
      · simpa [GoSlice.toList_make] using hxs
      · simp [hxs, tokenFor]
  · intro h0
    have hnil : rows.filterMap rowSpan? = [] := by
      simpa [GoSlice.len, GoSlice.toList_make] using h0
    simp [hnil]

/-- Witness for C1: the default-sort scenario with start times 100 and
50 returns both spans and the token "50". -/
theorem search_continuation_token_witness :
    searchEnvW.build reqW = .ok sqW ∧
    search reqW searchEnvW = .ok respW ∧
    ((0 < respW.spans.len → ∃ last, respW.spans.toList.getLast? = some last ∧
        respW.metadata = some { nextToken :=
          (if sqW.sort = "duration" then toString last.externalFields.durationNano
           else toString last.span.startTimeUnixNano) }) ∧
     (respW.spans.len = 0 → respW.metadata = none)) :=
  ⟨rfl, rfl, search_continuation_token reqW searchEnvW sqW respW rfl rfl⟩

/-- Claim C2 (counterexample): a Search call whose page is not full (one
span returned against a requested page size of 10) still carries a
continuation cursor, so the cursor is not absent for non-full pages. -/
theorem search_cursor_not_full_cex :
    search reqNotFull searchEnvNotFull = .ok respNotFull ∧
    respNotFull.spans.len < reqNotFull.pageSize ∧
    respNotFull.metadata.isSome = true :=
  ⟨rfl, by decide, rfl⟩

/-- Claim C2 (amended): the continuation cursor is absent exactly when
the returned page is empty; whenever at least one span is returned a
cursor is present, even for a page smaller than the requested page
size. -/
theorem search_cursor_iff_nonempty (r : SearchRequest) (env : SearchEnv)
    (resp : SearchResponse) (h : search r env = .ok resp) :
    resp.metadata.isSome = true ↔ 0 < resp.spans.len := by
  obtain ⟨sq, rows, _, _, _, hresp⟩ := search_ok_inv r env resp h
  subst hresp
  cases hxs : (rows.filterMap rowSpan?).getLast? with
  | none =>
    have hnil : rows.filterMap rowSpan? = [] := List.getLast?_eq_none_iff.mp hxs
    simp [hxs, hnil, GoSlice.len, GoSlice.toList_make]
  | some last =>
    have hne : rows.filterMap rowSpan? ≠ [] := by
      intro hnil
      rw [hnil] at hxs
      exact Option.noConfusion hxs
    simp [hxs, GoSlice.len, GoSlice.toList_make, List.length_pos.mpr hne]

/-- Witness for the amended C2: a one-span page against page size 10 has
a cursor, matching its nonempty span list. -/
theorem search_cursor_iff_nonempty_witness :
    search reqNotFull searchEnvNotFull = .ok respNotFull ∧
    (respNotFull.metadata.isSome = true ↔ 0 < respNotFull.spans.len) :=
  ⟨rfl, search_cursor_iff_nonempty reqNotFull searchEnvNotFull respNotFull rfl⟩

/-- Claim C3: every Search call that does not return an error yields a
spans sequence that is explicitly allocated (never the nil slice), even
when the query yields no decodable row. -/
theorem search_spans_not_nil (r : SearchRequest) (env : SearchEnv)
    (resp : SearchResponse) (h : search r env = .ok resp) :
    resp.spans.isNil = false := by
  obtain ⟨sq, rows, _, _, _, hresp⟩ := search_ok_inv r env resp h
  subst hresp
  rfl

/-- Witness for C3: a call whose every row fails to decode still returns
an allocated, empty spans sequence. -/
theorem search_spans_not_nil_witness :
    search reqW searchEnvAllBad = .ok respAllBad ∧
    respAllBad.spans.isNil = false :=
  ⟨rfl, search_spans_not_nil reqW searchEnvAllBad respAllBad rfl⟩

/-- Claim C4: when query building, preparation and execution succeed,
rows that fail to decode (scan or conversion error) are skipped and the
call still succeeds, returning exactly the successfully decoded rows in
row order. -/
theorem search_skips_bad_rows (r : SearchRequest) (env : SearchEnv)
    (sq : SearchQueryResponse) (rows : List RowOutcome)
    (hb : env.build r = .ok sq) (hp : env.prepare = .ok ()) (hq : env.query = .ok rows) :
    ∃ resp, search r env = .ok resp ∧ resp.spans.toList = rows.filterMap rowSpan? :=
  ⟨_, search_ok_eq r env sq rows hb hp hq, rfl⟩

/-- Witness for C4: two decodable rows interleaved with a scan failure
and a conversion failure produce a successful call returning exactly the
two decoded spans in order. -/
theorem search_skips_bad_rows_witness :
    searchEnvMixed.build reqW = .ok sqW ∧
    searchEnvMixed.prepare = .ok () ∧
    searchEnvMixed.query = .ok rowsMixed ∧
    ∃ resp, search reqW searchEnvMixed = .ok resp ∧
      resp.spans.toList = rowsMixed.filterMap rowSpan? :=
  ⟨rfl, rfl, rfl, search_skips_bad_rows reqW searchEnvMixed sqW rowsMixed rfl rfl rfl⟩

/-! ## Claims about GetAvailableTags -/

theorem collectStaticTags_toList (st : List (String × String)) (acc : GoSlice TagInfo) :
    (collectStaticTags st acc).toList
      = acc.toList ++ st.map (fun p => ({ name := p.1, type := p.2 } : TagInfo)) := by
  induction st generalizing acc with
  | nil => simp [collectStaticTags]
  | cons p rest ih =>
    cases p with
    | mk n ty => simp [collectStaticTags, ih, GoSlice.toList_append]

theorem collectDynamicTags_toList (rows : List TagRow) (acc : GoSlice TagInfo) :
    (collectDynamicTags rows acc).toList = acc.toList ++ rows.filterMap dynTagEntry := by
  induction rows generalizing acc with
  | nil => simp [collectDynamicTags]
  | cons r rest ih =>
    cases r with
    | scanError => simp [collectDynamicTags, ih, dynTagEntry]
    | ok t =>
      by_cases hcond : t.tableKey = "" ∨ t.tagName = ""
      · simp [collectDynamicTags, ih, dynTagEntry, hcond]
      · simp [collectDynamicTags, ih, dynTagEntry, hcond, GoSlice.toList_append]

/-- Inversion: a successful GetAvailableTags call had a successful
discovery query, and its tag list is the static entries under their bare
names followed by the per-row discovered contributions. -/
theorem getAvailableTags_ok_inv (st : List (String × String)) (env : TagsEnv)
    (resp : GetAvailableTagsResponse) (h : getAvailableTags st env = .ok resp) :
    ∃ rows, env.query = .ok rows ∧
      resp.tags.toList
        = st.map (fun p => ({ name := p.1, type := p.2 } : TagInfo))
            ++ rows.filterMap dynTagEntry := by
  unfold getAvailableTags at h
  cases hp : env.prepare with
  | error e =>
    rw [hp] at h
    exact Except.noConfusion h
  | ok u =>
    cases u
    rw [hp] at h
    cases hq : env.query with
    | error e =>
      rw [hq] at h
      exact Except.noConfusion h
    | ok rows =>
      rw [hq] at h
      refine ⟨rows, rfl, ?_⟩
      obtain rfl := Except.ok.inj h
      rw [collectDynamicTags_toList, collectStaticTags_toList, GoSlice.toList_nilSlice]
      simp

/-- Claim C5: in a successful GetAvailableTags call every static
registry entry appears under its bare name, every discovered pair with
nonempty source and field appears as source.field with the reported
type, a discovered pair with an empty source or field contributes
nothing, and the whole list is exactly those contributions. -/
theorem getAvailableTags_static_and_dynamic (st : List (String × String)) (env : TagsEnv)
    (rows : List TagRow) (resp : GetAvailableTagsResponse)
    (hq : env.query = .ok rows) (h : getAvailableTags st env = .ok resp) :
    resp.tags.toList
        = st.map (fun p => ({ name := p.1, type := p.2 } : TagInfo))
            ++ rows.filterMap dynTagEntry ∧
    (∀ p ∈ st, ({ name := p.1, type := p.2 } : TagInfo) ∈ resp.tags.toList) ∧
    (∀ t : SqliteTag, TagRow.ok t ∈ rows → t.tableKey ≠ "" → t.tagName ≠ "" →
      ({ name := t.tableKey ++ "." ++ t.tagName, type := t.tagType } : TagInfo)
        ∈ resp.tags.toList) ∧
    (∀ t : SqliteTag, TagRow.ok t ∈ rows → (t.tableKey = "" ∨ t.tagName = "") →
      dynTagEntry (TagRow.ok t) = none) := by
  obtain ⟨rows2, hq2, hchar⟩ := getAvailableTags_ok_inv st env resp h
  rw [hq] at hq2
  injection hq2 with hrows
  subst hrows
  refine ⟨hchar, ?_, ?_, ?_⟩
  · intro p hp
    rw [hchar]
    exact List.mem_append_left _ (List.mem_map_of_mem _ hp)
  · intro t ht hk hn
    rw [hchar]
    refine List.mem_append_right _ ?_
    refine List.mem_filterMap.mpr ⟨TagRow.ok t, ht, ?_⟩
    have hrw : dynTagEntry (TagRow.ok t)
        = if t.tableKey = "" ∨ t.tagName = "" then none
          else some { name := t.tableKey ++ "." ++ t.tagName, type := t.tagType } := rfl
    rw [hrw, if_neg (by exact fun hc => hc.elim hk hn)]
  · intro t _ hcond
    have hrw : dynTagEntry (TagRow.ok t)
        = if t.tableKey = "" ∨ t.tagName = "" then none
          else some { name := t.tableKey ++ "." ++ t.tagName, type := t.tagType } := rfl
    rw [hrw, if_pos hcond]

/-- Witness for C5: registry http.method plus discovery of
resource.service.name (with one scan failure and one empty-source row)
yields exactly the bare static entry and the qualified discovered
entry. -/
theorem getAvailableTags_static_and_dynamic_witness :
    tagsEnvW.query = .ok tagRowsW ∧
    getAvailableTags staticW tagsEnvW = .ok tagsRespW ∧
    (tagsRespW.tags.toList
        = staticW.map (fun p => ({ name := p.1, type := p.2 } : TagInfo))
            ++ tagRowsW.filterMap dynTagEntry ∧
     (∀ p ∈ staticW, ({ name := p.1, type := p.2 } : TagInfo) ∈ tagsRespW.tags.toList) ∧
     (∀ t : SqliteTag, TagRow.ok t ∈ tagRowsW → t.tableKey ≠ "" → t.tagName ≠ "" →
       ({ name := t.tableKey ++ "." ++ t.tagName, type := t.tagType } : TagInfo)
         ∈ tagsRespW.tags.toList) ∧
     (∀ t : SqliteTag, TagRow.ok t ∈ tagRowsW → (t.tableKey = "" ∨ t.tagName = "") →
       dynTagEntry (TagRow.ok t) = none)) :=
  ⟨rfl, rfl, getAvailableTags_static_and_dynamic staticW tagsEnvW tagRowsW tagsRespW rfl rfl⟩

/-- Claim C6 (counterexample): discovery of the pair (http, method)
against a static registry holding http.method produces two entries with
the identical qualified name http.method, so the output is not
deduplicated. -/
theorem getAvailableTags_dup_cex :
    getAvailableTags staticW tagsEnvDup = .ok tagsRespDup ∧
    ¬ (tagsRespDup.tags.toList.map TagInfo.name).Nodup :=
  ⟨rfl, by decide⟩

/-- Claim C6 (amended): GetAvailableTags performs no deduplication; its
output has no two entries with an identical qualified name exactly in
the case that the static names together with the qualified names of the
discovered contributions are pairwise distinct. -/
theorem getAvailableTags_nodup (st : List (String × String)) (env : TagsEnv)
    (rows : List TagRow) (resp : GetAvailableTagsResponse)
    (hq : env.query = .ok rows) (h : getAvailableTags st env = .ok resp)
    (hnd : (st.map (fun p => p.1)
        ++ (rows.filterMap dynTagEntry).map TagInfo.name).Nodup) :
    (resp.tags.toList.map TagInfo.name).Nodup := by
  obtain ⟨rows2, hq2, hchar⟩ := getAvailableTags_ok_inv st env resp h
  rw [hq] at hq2
  injection hq2 with hrows
  subst hrows
  rw [hchar]
  simpa [List.map_map, Function.comp_def] using hnd

/-- Witness for the amended C6: the C5 scenario has pairwise distinct
names and a duplicate-free output. -/
theorem getAvailableTags_nodup_witness :
    tagsEnvW.query = .ok tagRowsW ∧
    getAvailableTags staticW tagsEnvW = .ok tagsRespW ∧
    (staticW.map (fun p => p.1)
        ++ (tagRowsW.filterMap dynTagEntry).map TagInfo.name).Nodup ∧
    (tagsRespW.tags.toList.map TagInfo.name).Nodup :=
  ⟨rfl, rfl, by decide,
    getAvailableTags_nodup staticW tagsEnvW tagRowsW tagsRespW rfl rfl (by decide)⟩

/-! ## Claims about GetTagValues and GetTagsValues -/

theorem collectTagValues_toList (rows : List TagValueRow) (acc : GoSlice TagValueInfo) :
    (collectTagValues rows acc).toList = acc.toList ++ rows.filterMap tagValueEntry := by
  induction rows generalizing acc with
  | nil => simp [collectTagValues]
  | cons r rest ih =>
    cases r with
    | scanError => simp [collectTagValues, ih, tagValueEntry]
    | ok name c =>
      cases name with
      | none => simp [collectTagValues, ih, tagValueEntry]
      | some v => simp [collectTagValues, ih, tagValueEntry, GoSlice.toList_append]

/-- Inversion: a successful GetTagValues call had a successful query,
and its value list is exactly the per-row contributions. -/
theorem getTagValues_ok_inv (env : TagValuesEnv) (resp : TagValuesResponse)
    (h : getTagValues env = .ok resp) :
    ∃ rows, env.query = .ok rows ∧ resp.values.toList = rows.filterMap tagValueEntry := by
  unfold getTagValues at h
  cases hb : env.build with
  | error e =>
    rw [hb] at h
    exact Except.noConfusion h
  | ok u =>
    cases u
    rw [hb] at h
    cases hp : env.prepare with
    | error e =>
      rw [hp] at h
      exact Except.noConfusion h
    | ok u2 =>
      cases u2
      rw [hp] at h
      cases hq : env.query with
      | error e =>
        rw [hq] at h
        exact Except.noConfusion h
      | ok rows =>
        rw [hq] at h
        refine ⟨rows, rfl, ?_⟩
        obtain rfl := Except.ok.inj h
        rw [collectTagValues_toList, GoSlice.toList_nilSlice]
        simp

/-- Claim C7: a successful GetTagValues call returns no entry with a
null value, and returns one (value, count) entry for each successfully
scanned non-null row, in row order. -/
theorem getTagValues_no_null (env : TagValuesEnv) (rows : List TagValueRow)
    (resp : TagValuesResponse)
    (hq : env.query = .ok rows) (h : getTagValues env = .ok resp) :
    (∀ e ∈ resp.values.toList, e.value.isSome = true) ∧
    resp.values.toList = rows.filterMap tagValueEntry := by
  obtain ⟨rows2, hq2, hchar⟩ := getTagValues_ok_inv env resp h
  rw [hq] at hq2
  injection hq2 with hrows
  subst hrows
  refine ⟨?_, hchar⟩
  intro e he
  rw [hchar] at he
  obtain ⟨r, _, hr⟩ := List.mem_filterMap.mp he
  cases r with
  | scanError => exact Option.noConfusion hr
  | ok name c =>
    cases name with
    | none => exact Option.noConfusion hr
    | some v =>
      obtain rfl := Option.some.inj hr
      rfl

/-- Witness for C7: rows (GET, 12), (POST, 3), (NULL, 5) yield exactly
the two non-null entries. -/
theorem getTagValues_no_null_witness :
    tagValuesEnvW.query = .ok tagValueRowsW ∧
    getTagValues tagValuesEnvW = .ok tagValuesRespW ∧
    ((∀ e ∈ tagValuesRespW.values.toList, e.value.isSome = true) ∧
     tagValuesRespW.values.toList = tagValueRowsW.filterMap tagValueEntry) :=
  ⟨rfl, rfl, getTagValues_no_null tagValuesEnvW tagValueRowsW tagValuesRespW rfl rfl⟩

theorem collectTagsValues_eq (envOf : String → TagValuesEnv) (tags : List String)
    (acc : List (String × TagValuesResponse)) :
    collectTagsValues envOf tags acc
      = acc ++ tags.filterMap
          (fun t => (getTagValues (envOf t)).toOption.map (fun resp => (t, resp))) := by
  induction tags generalizing acc with
  | nil => simp [collectTagsValues]
  | cons t rest ih =>
    cases hg : getTagValues (envOf t) with
    | error e => simp [collectTagsValues, hg, ih, Except.toOption]
    | ok resp => simp [collectTagsValues, hg, ih, Except.toOption]

/-- Claim C8: the batch GetTagsValues call never fails; every tag whose
per-tag lookup succeeds is stored with its response, and no entry is
stored for a tag whose per-tag lookup fails. -/
theorem getTagsValues_batch (envOf : String → TagValuesEnv) (tags : List String) :
    ∃ result, getTagsValues envOf tags = .ok result ∧
      (∀ t ∈ tags, ∀ resp, getTagValues (envOf t) = .ok resp → (t, resp) ∈ result) ∧
      (∀ t ∈ tags, ∀ e, getTagValues (envOf t) = .error e → ∀ p ∈ result, p.1 ≠ t) := by
  refine ⟨collectTagsValues envOf tags [], rfl, ?_, ?_⟩
  · intro t ht resp hresp
    rw [collectTagsValues_eq]
    simp only [List.nil_append]
    refine List.mem_filterMap.mpr ⟨t, ht, ?_⟩
    rw [hresp]
    rfl
  · intro t _ e he p hp
    rw [collectTagsValues_eq] at hp
    simp only [List.nil_append] at hp
    obtain ⟨a, _, hfa⟩ := List.mem_filterMap.mp hp
    cases hg : getTagValues (envOf a) with
    | error e2 =>
      rw [hg] at hfa
      exact Option.noConfusion hfa
    | ok resp =>
      rw [hg] at hfa
      simp only [Except.toOption, Option.map_some', Option.some.injEq] at hfa
      obtain rfl := hfa
      intro hpt
      have ha : a = t := hpt
      rw [ha] at hg
      rw [he] at hg
      exact Except.noConfusion hg

/-- Witness for C8: over tags a and b where b's query raises an
ExecutionError, the batch succeeds and the mapping holds only a; the
general membership and omission facts are instantiated at that input. -/
theorem getTagsValues_batch_witness :
    getTagsValues envOfW ["a", "b"] = .ok [("a", tagValuesRespW)] ∧
    (∃ result, getTagsValues envOfW ["a", "b"] = .ok result ∧
      (∀ t ∈ ["a", "b"], ∀ resp, getTagValues (envOfW t) = .ok resp → (t, resp) ∈ result) ∧
      (∀ t ∈ ["a", "b"], ∀ e, getTagValues (envOfW t) = .error e → ∀ p ∈ result, p.1 ≠ t)) :=
  ⟨rfl, getTagsValues_batch envOfW ["a", "b"]⟩

/-- Claim C10: a GetTagValues call whose rows are all null-valued or
fail to scan (in particular, no rows at all) still succeeds, returning a
response with an empty value list, and that tag still appears with this
response in any batch GetTagsValues result that includes it. -/
theorem getTagValues_empty_rows (env : TagValuesEnv) (rows : List TagValueRow)
    (hb : env.build = .ok ()) (hp : env.prepare = .ok ()) (hq : env.query = .ok rows)
    (hnull : ∀ r ∈ rows, tagValueEntry r = none) :
    ∃ resp, getTagValues env = .ok resp ∧ resp.values.len = 0 ∧
      ∀ (envOf : String → TagValuesEnv) (tags : List String) (tag : String),
        tag ∈ tags → envOf tag = env →
        ∃ result, getTagsValues envOf tags = .ok result ∧ (tag, resp) ∈ result := by
  have hget : getTagValues env
      = .ok { values := collectTagValues rows GoSlice.nilSlice } := by
    unfold getTagValues
    rw [hb, hp, hq]
  have hfm : rows.filterMap tagValueEntry = [] := List.filterMap_eq_nil_iff.mpr hnull
  refine ⟨_, hget, ?_, ?_⟩
  · show (collectTagValues rows GoSlice.nilSlice).toList.length = 0
    rw [collectTagValues_toList, GoSlice.toList_nilSlice, hfm]
    rfl
  · intro envOf tags tag htag henv
    refine ⟨collectTagsValues envOf tags [], rfl, ?_⟩
    rw [collectTagsValues_eq]
    simp only [List.nil_append]
    refine List.mem_filterMap.mpr ⟨tag, htag, ?_⟩
    rw [henv, hget]
    rfl

/-- Witness for C10: rows holding only a null value and a scan failure
produce a successful call with an empty value list, still stored in the
batch result. -/
theorem getTagValues_empty_rows_witness :
    tagValuesEnvNull.build = .ok () ∧
    tagValuesEnvNull.prepare = .ok () ∧
    tagValuesEnvNull.query = .ok tagValueRowsNull ∧
    (∀ r ∈ tagValueRowsNull, tagValueEntry r = none) ∧
    (∃ resp, getTagValues tagValuesEnvNull = .ok resp ∧ resp.values.len = 0 ∧
      ∀ (envOf : String → TagValuesEnv) (tags : List String) (tag : String),
        tag ∈ tags → envOf tag = tagValuesEnvNull →
        ∃ result, getTagsValues envOf tags = .ok result ∧ (tag, resp) ∈ result) :=
  ⟨rfl, rfl, rfl, by decide,
    getTagValues_empty_rows tagValuesEnvNull tagValueRowsNull rfl rfl rfl (by decide)⟩

/-! ## Claim about the unimplemented operations -/

/-- Claim C9: each unimplemented operation (GetSystemId, SetSystemId,
GetTagsStatistics) deterministically returns no result value together
with its fixed not-implemented error message, for every request. -/
theorem unimplemented_methods (r1 : GetSystemIdRequest) (r2 : SetSystemIdRequest)
    (r3 : TagStatisticsRequest) (tag : String) :
    getSystemId r1 = (none, some "Not implemented method") ∧
    setSystemId r2 = (none, some "Not implemented method") ∧
    getTagsStatistics r3 tag
      = (none, some "GetTagsStatistics is not yet implemented for sqlite plugin") :=
  ⟨rfl, rfl, rfl⟩

end Teletrace
